import Mathlib

set_option maxRecDepth 8000

/-!
Verification development for the RAG chat application.

The TypeScript sources are shallowly embedded as pure Lean functions.
External effects (the embedding HTTP endpoint, the PostgreSQL store, the
Pinecone index, the completion service) are modeled by environment records
that fix the outcome of each external call, and every modeled function
additionally returns the list of external calls it performed, in order.
JavaScript strings are handled through helpers that operate on the
underlying character lists so that all definitions evaluate inside the
kernel.  JavaScript numbers appearing in similarity scores are modeled as
rationals (exact arithmetic on the values 1 and 0.1 used by the code).
-/

/-! ## JavaScript string primitives -/

/-- Contiguous-substring test on character lists:
`listIncludes needle hay` is `hay.includes(needle)` read with the
arguments flipped (`needle` occurs inside the second argument). -/
def listIncludes (needle : List Char) : List Char → Bool
  | [] => needle.isEmpty
  | c :: rest => needle.isPrefixOf (c :: rest) || listIncludes needle rest

/-- JS `hay.includes(needle)`. -/
def jsIncludes (hay needle : String) : Bool :=
  listIncludes needle.data hay.data

/-- JS `s.toLowerCase()` (ASCII-faithful; the code only compares
case-folded text). -/
def jsToLower (s : String) : String :=
  (s.data.map Char.toLower).asString

/-- JS `s.trim()`. -/
def jsTrim (s : String) : String :=
  (((s.data.dropWhile Char.isWhitespace).reverse.dropWhile Char.isWhitespace).reverse).asString

/-- JS `s.slice(0, n)` / `s.substring(0, n)` (by characters). -/
def jsTake (n : Nat) (s : String) : String :=
  (s.data.take n).asString

/-- JS `s.slice(n)` (by characters). -/
def jsDrop (n : Nat) (s : String) : String :=
  (s.data.drop n).asString

/-- JS `s.startsWith(pre)`. -/
def jsStartsWith (s pre : String) : Bool :=
  pre.data.isPrefixOf s.data

/-- Split a character list at every character satisfying `p`
(the separators are consumed; empty groups are kept, as in JS `split`). -/
def splitPCL (p : Char → Bool) : List Char → List (List Char)
  | [] => [[]]
  | c :: rest =>
    if p c then [] :: splitPCL p rest
    else
      match splitPCL p rest with
      | [] => [[c]]
      | g :: gs => (c :: g) :: gs

/-- JS `s.split(sep)` for a single-character separator (the only form the
code uses: `split(" ")` and `split("\n")`). -/
def jsSplit (s : String) (sep : Char) : List String :=
  (splitPCL (fun c => c == sep) s.data).map List.asString

/-- JS `array.join(sep)` / template concatenation with a separator. -/
def joinSep (sep : String) : List String → String
  | [] => ""
  | [s] => s
  | s :: rest => s ++ sep ++ joinSep sep rest

/-! ## Data model -/

/-- An embedding vector (`number[]` in the source; only its length is ever
inspected by the code under verification). -/
abbrev Vec := List ℚ

/-- Content parts of a message sent to the completion service: plain text,
or multimodal text plus image data-URLs (src/unnamed/part_003 lines 75-91). -/
inductive MsgContent where
  | text (s : String)
  | multimodal (text : String) (images : List String)
deriving DecidableEq

/-- A message in the completion-service request body. -/
structure OutMsg where
  role : String
  content : MsgContent
deriving DecidableEq

/-- An incoming chat message from the request JSON. -/
structure InMsg where
  role : String
  content : String
deriving DecidableEq

/-- External calls a pipeline stage can perform, recorded in order. -/
inductive Call where
  | embedFetch
  | pgSearch
  | pineconeQuery
  | embeddingsCreate (id : String)
  | pineconeUpsert (id : String)
  | usersGetById (id : String)
  | usersUpsert (id : String)
  | documentsCreate (id : String)
  | openrouterChat (messages : List OutMsg)
  | chatMessagesCreate (userId : String)
deriving DecidableEq

/-! ## Embedding client — `embedText` (src/src/lib/rag.ts lines 29-88) -/

/-- Outcome of the one `fetch` to the embeddings endpoint:
the fetch itself throwing, a non-ok HTTP status, a body without
`data.data[0].embedding`, or a returned vector. -/
inductive EmbedResponse where
  | fetchFailed (msg : String)
  | httpError (status : Nat) (body : String)
  | invalidBody
  | ok (embedding : Vec)

/-- Environment of `embedText`: whether `OPENROUTER_API_KEY` is set, and
the embedding service's reply as a function of the cleaned input text. -/
structure EmbedEnv where
  apiKeySet : Bool
  response : String → EmbedResponse

/-- Input preprocessing in `embedText`:
`text.slice(0, 8000).replace(/\s+/g, " ").trim()`. -/
def cleanText (text : String) : String :=
  joinSep " "
    (((splitPCL Char.isWhitespace (jsTake 8000 text).data).filter
        (fun g => !g.isEmpty)).map List.asString)

/-- `embedText` (rag.ts 29-88).  Returns the result the caller observes
(`Except` models raised errors) and the external calls performed. -/
def embedText (env : EmbedEnv) (text : String) : Except String Vec × List Call :=
  if jsTrim text = "" then
    (.error "Empty text provided for embedding", [])
  else if env.apiKeySet = false then
    (.error "OPENROUTER_API_KEY is not set", [])
  else
    match env.response (cleanText text) with
    | .fetchFailed msg => (.error msg, [Call.embedFetch])
    | .httpError status body =>
        (.error ("Embedding API failed (" ++ Nat.repr status ++ "): " ++ body),
          [Call.embedFetch])
    | .invalidBody => (.error "Invalid embedding response from API", [Call.embedFetch])
    | .ok embedding =>
        if embedding.length ≠ 1536 then
          (.error ("Invalid embedding dimensions: " ++ Nat.repr embedding.length ++
              ", expected 1536"),
            [Call.embedFetch])
        else
          (.ok embedding, [Call.embedFetch])

/-! ## Primary-store row insert — `db.embeddings.create`
(src/src/lib/db.ts lines 212-265) -/

/-- `db.embeddings.create`: validates the vector dimension, then runs the
`INSERT ... ON CONFLICT (id) DO UPDATE` whose outcome the environment
fixes.  The trace records whether the SQL insert was reached. -/
def dbEmbeddingsCreate (outcome : Except String Unit) (id : String) (embedding : Vec) :
    Except String Unit × List Call :=
  if embedding.length ≠ 1536 then
    (.error ("Invalid embedding dimensions: " ++ Nat.repr embedding.length ++
        ", expected 1536"), [])
  else
    match outcome with
    | .error e => (.error e, [Call.embeddingsCreate id])
    | .ok _ => (.ok (), [Call.embeddingsCreate id])

/-! ## Dual-store write — `storeEmbedding` (rag.ts lines 90-170) -/

/-- The metadata record `storeEmbedding` receives (upload route lines
231-239).  It only flows into the stores, never into control flow. -/
structure StoreMetadata where
  content : String
  fileName : String
  fileType : String
  chunkIndex : Nat
  uploadedAt : String
  documentId : String
  userId : String
deriving DecidableEq

/-- Environment of `storeEmbedding`: outcome of the PostgreSQL insert,
whether `PINECONE_INDEX` is configured, whether `initPinecone` produced a
client, and the outcome of the Pinecone upsert. -/
structure StoreEnv where
  pgCreate : Except String Unit
  pineconeIndexConfigured : Bool
  pineconeClientAvailable : Bool
  pineconeUpsert : Except String Unit

deriving instance DecidableEq for Except

/-- Result of `storeEmbedding`: the value/exception the caller observes,
the collected non-fatal error strings (the `errors` array), and the trace. -/
structure StoreResult where
  result : Except String Unit
  errors : List String
  trace : List Call
deriving DecidableEq

/-- `storeEmbedding` (rag.ts 90-170): dimension check, then the critical
PostgreSQL write (failure rethrown), then the best-effort Pinecone upsert
(failure collected, never rethrown). -/
def storeEmbedding (env : StoreEnv) (id : String) (embedding : Vec)
    ( _metadata : StoreMetadata) : StoreResult :=
  if embedding.length ≠ 1536 then
    { result := .error ("Invalid embedding: expected 1536 dimensions, got " ++
        Nat.repr embedding.length),
      errors := [], trace := [] }
  else
    let cr := dbEmbeddingsCreate env.pgCreate id embedding
    match cr.1 with
    | .error e =>
        { result := .error e,
          errors := ["PostgreSQL storage failed: " ++ e],
          trace := cr.2 }
    | .ok _ =>
        if env.pineconeIndexConfigured then
          if env.pineconeClientAvailable then
            match env.pineconeUpsert with
            | .error e =>
                { result := .ok (),
                  errors := ["Pinecone storage failed: " ++ e],
                  trace := cr.2 ++ [Call.pineconeUpsert id] }
            | .ok _ =>
                { result := .ok (), errors := [],
                  trace := cr.2 ++ [Call.pineconeUpsert id] }
          else
            { result := .ok (), errors := [], trace := cr.2 }
        else
          { result := .ok (), errors := [], trace := cr.2 }

/-! ## Search results of the two stores -/

/-- A row returned by `db.embeddings.search` (db.ts 278-310):
`SELECT id, document_id, content, metadata, 1 - (...) AS similarity`. -/
structure PgMatch where
  id : String
  document_id : String
  content : String
  metadata : List (String × String)
  similarity : ℚ
deriving DecidableEq

/-- A match returned by the Pinecone `index.query` call (rag.ts 202-206):
id, score and the stored metadata record. -/
structure PineconeMatch where
  id : String
  score : ℚ
  metadata : List (String × String)
deriving DecidableEq

/-- An element of the `any[]` that `queryEmbeddings` returns: at runtime
it is either a PostgreSQL row or a raw Pinecone match. -/
inductive Match where
  | pg (m : PgMatch)
  | pinecone (m : PineconeMatch)
deriving DecidableEq

/-- JS property access `match.content`: present on PostgreSQL rows,
`undefined` on Pinecone matches. -/
def Match.contentField : Match → Option String
  | .pg m => some m.content
  | .pinecone _ => none

/-- JS property access `match.metadata`. -/
def Match.metadataField : Match → List (String × String)
  | .pg m => m.metadata
  | .pinecone m => m.metadata

/-- JS object-key lookup `obj?.[key]`. -/
def metaLookup (md : List (String × String)) (key : String) : Option String :=
  (md.find? (fun kv => kv.1 == key)).map (fun kv => kv.2)

/-- JS `x || fallback` on an possibly-undefined string (empty string is
falsy and also falls through). -/
def jsStringOr (v : Option String) (fallback : String) : String :=
  match v with
  | none => fallback
  | some s => if s = "" then fallback else s

/-- Content extraction in `retrieveContext` (rag.ts 268-271):
`match.content || match.metadata?.content || match.metadata?.chunk_content || ""`. -/
def Match.extractedContent (m : Match) : String :=
  jsStringOr m.contentField
    (jsStringOr (metaLookup m.metadataField "content")
      (jsStringOr (metaLookup m.metadataField "chunk_content") ""))

/-! ## Dual-store search — `queryEmbeddings` (rag.ts lines 172-224) -/

/-- Environment of `queryEmbeddings`: outcome of the PostgreSQL search,
Pinecone configuration/client availability, and the Pinecone query outcome. -/
structure QueryEnv where
  pgSearch : Except String (List PgMatch)
  pineconeIndexConfigured : Bool
  pineconeClientAvailable : Bool
  pineconeQuery : Except String (List PineconeMatch)

/-- The Pinecone fallback block of `queryEmbeddings` (rag.ts 196-216),
reached only when the primary store produced no results. -/
def queryPineconeFallback (env : QueryEnv) : List Match × List Call :=
  if env.pineconeIndexConfigured then
    if env.pineconeClientAvailable then
      match env.pineconeQuery with
      | .ok ms =>
          if ms.length > 0 then (ms.map Match.pinecone, [Call.pineconeQuery])
          else ([], [Call.pineconeQuery])
      | .error _ => ([], [Call.pineconeQuery])
    else ([], [])
  else ([], [])

/-- Body of `queryEmbeddings` inside the outer `try` (rag.ts 176-219):
the dimension check throws; the PostgreSQL search is attempted first and
its matches returned if non-empty; otherwise the Pinecone fallback runs. -/
def queryEmbeddingsBody (env : QueryEnv) (queryEmbedding : Vec) ( _topK : Nat) :
    Except String (List Match) × List Call :=
  if queryEmbedding.length ≠ 1536 then
    (.error ("Invalid query embedding: expected 1536 dimensions, got " ++
        Nat.repr queryEmbedding.length), [])
  else
    match env.pgSearch with
    | .ok results =>
        if results.length > 0 then (.ok (results.map Match.pg), [Call.pgSearch])
        else
          (.ok (queryPineconeFallback env).1,
            Call.pgSearch :: (queryPineconeFallback env).2)
    | .error _ =>
        (.ok (queryPineconeFallback env).1,
          Call.pgSearch :: (queryPineconeFallback env).2)

/-- `queryEmbeddings` (rag.ts 172-224): the outer `catch` converts any
raised error into the empty result list. -/
def queryEmbeddings (env : QueryEnv) (queryEmbedding : Vec) (topK : Nat) :
    List Match × List Call :=
  match (queryEmbeddingsBody env queryEmbedding topK).1 with
  | .ok results => (results, (queryEmbeddingsBody env queryEmbedding topK).2)
  | .error _ => ([], (queryEmbeddingsBody env queryEmbedding topK).2)

/-! ## Lexical re-ranking — `textSimilarity` and the sort
(rag.ts lines 238-257) -/

/-- `textSimilarity` (rag.ts 238-250): 1 if the content contains the whole
query (case-insensitive), plus 0.1 per query word contained in the content. -/
def textSimilarity (a b : String) : ℚ :=
  (if jsIncludes (jsToLower b) (jsToLower a) then (1 : ℚ) else 0) +
    (((jsSplit (jsToLower a) ' ').filter
        (fun w => jsIncludes (jsToLower b) w)).length : ℚ) * (1 / 10)

/-- The same score measured in integer tenths (so comparisons compute in
the kernel); `textSimilarity a b = textSimilarityTenths a b / 10`. -/
def textSimilarityTenths (a b : String) : Nat :=
  (if jsIncludes (jsToLower b) (jsToLower a) then 10 else 0) +
    ((jsSplit (jsToLower a) ' ').filter (fun w => jsIncludes (jsToLower b) w)).length

theorem textSimilarity_eq_tenths (a b : String) :
    textSimilarity a b = (textSimilarityTenths a b : ℚ) / 10 := by
  unfold textSimilarity textSimilarityTenths
  cases h : jsIncludes (jsToLower b) (jsToLower a)
  · simp only [h, Bool.false_eq_true, if_false]
    push_cast
    ring
  · simp only [h, if_true]
    push_cast
    ring

theorem textSimilarity_le_iff (q b b' : String) :
    textSimilarity q b ≤ textSimilarity q b' ↔
      textSimilarityTenths q b ≤ textSimilarityTenths q b' := by
  rw [textSimilarity_eq_tenths, textSimilarity_eq_tenths,
    div_le_div_iff_of_pos_right (by norm_num : (0:ℚ) < 10), Nat.cast_le]

/-- Ordering used by the re-ranking sort (rag.ts 255-257): the JS
comparator `textSimilarity(query, b.content) - textSimilarity(query, a.content)`
keeps `a` before `b` exactly when `b`'s score is at most `a`'s score. -/
abbrev rerankRel (query : String) (a b : Match) : Prop :=
  textSimilarityTenths query ((Match.contentField b).getD "") ≤
    textSimilarityTenths query ((Match.contentField a).getD "")

instance rerankRelTotal (query : String) : IsTotal Match (rerankRel query) :=
  ⟨fun _ _ => Nat.le_total _ _⟩

instance rerankRelTrans (query : String) : IsTrans Match (rerankRel query) :=
  ⟨fun _ _ _ h h2 => Nat.le_trans h2 h⟩

/-- The in-place stable sort `matches.sort(comparator)` (rag.ts 255-257),
modeled by the stable insertion sort over `rerankRel`. -/
def rerank (query : String) (ms : List Match) : List Match :=
  List.insertionSort (rerankRel query) ms

/-! ## Context retrieval — `retrieveContext` (rag.ts lines 226-288) -/

/-- Environment of `retrieveContext`: the embedding client environment and
the dual-store search environment. -/
structure RagEnv where
  embed : EmbedEnv
  query : QueryEnv

/-- Whether the JS sort comparator raises a `TypeError`: with at least two
elements every element is compared at least once, and the comparator calls
`toLowerCase()` on `match.content`, which is `undefined` for Pinecone
matches. -/
def sortThrows (ms : List Match) : Bool :=
  decide (2 ≤ ms.length) && ms.any (fun m => m.contentField.isNone)

/-- `retrieveContext` (rag.ts 226-288).  Empty/whitespace queries return
`""` at once; every later failure is converted to `""` by the enclosing
`catch`; otherwise the over-fetched matches are re-ranked against the
original query and their contents joined with blank lines. -/
def retrieveContext (env : RagEnv) (query : String) : String × List Call :=
  if jsTrim query = "" then ("", [])
  else
    let er := embedText env.embed
      ("Use the document only. Extract the answer. Question: " ++ query)
    match er.1 with
    | .error _ => ("", er.2)
    | .ok queryEmbedding =>
        let qr := queryEmbeddings env.query queryEmbedding 10
        if sortThrows qr.1 then ("", er.2 ++ qr.2)
        else if qr.1.length = 0 then ("", er.2 ++ qr.2)
        else
          (joinSep "\n\n"
              (((rerank query qr.1).map Match.extractedContent).filter
                (fun s => s ≠ "")),
            er.2 ++ qr.2)


/-! ## Characterization lemmas for `queryEmbeddings` -/

theorem queryEmbeddingsBody_dim_bad (env : QueryEnv) (v : Vec) (k : Nat)
    (hv : v.length ≠ 1536) :
    queryEmbeddingsBody env v k =
      (Except.error ("Invalid query embedding: expected 1536 dimensions, got " ++
        Nat.repr v.length), []) := by
  unfold queryEmbeddingsBody
  rw [if_pos hv]

theorem queryEmbeddingsBody_pg_hit (env : QueryEnv) (v : Vec) (k : Nat)
    (hv : v.length = 1536) (res : List PgMatch) (hp : env.pgSearch = Except.ok res)
    (hlen : res ≠ []) :
    queryEmbeddingsBody env v k = (Except.ok (res.map Match.pg), [Call.pgSearch]) := by
  unfold queryEmbeddingsBody
  rw [if_neg (by simp [hv]), hp]
  simp [List.length_pos.mpr hlen]

theorem queryEmbeddingsBody_pg_empty (env : QueryEnv) (v : Vec) (k : Nat)
    (hv : v.length = 1536) (hp : env.pgSearch = Except.ok []) :
    queryEmbeddingsBody env v k =
      (Except.ok (queryPineconeFallback env).1,
        Call.pgSearch :: (queryPineconeFallback env).2) := by
  unfold queryEmbeddingsBody
  rw [if_neg (by simp [hv]), hp]
  simp

theorem queryEmbeddingsBody_pg_error (env : QueryEnv) (v : Vec) (k : Nat)
    (hv : v.length = 1536) (e : String) (hp : env.pgSearch = Except.error e) :
    queryEmbeddingsBody env v k =
      (Except.ok (queryPineconeFallback env).1,
        Call.pgSearch :: (queryPineconeFallback env).2) := by
  unfold queryEmbeddingsBody
  rw [if_neg (by simp [hv]), hp]

theorem queryEmbeddings_of_body_ok (env : QueryEnv) (v : Vec) (k : Nat)
    (r : List Match) (tr : List Call)
    (hb : queryEmbeddingsBody env v k = (Except.ok r, tr)) :
    queryEmbeddings env v k = (r, tr) := by
  unfold queryEmbeddings
  rw [hb]

theorem queryEmbeddings_of_body_error (env : QueryEnv) (v : Vec) (k : Nat)
    (e : String) (tr : List Call)
    (hb : queryEmbeddingsBody env v k = (Except.error e, tr)) :
    queryEmbeddings env v k = ([], tr) := by
  unfold queryEmbeddings
  rw [hb]

theorem queryPineconeFallback_hit (env : QueryEnv)
    (hc : env.pineconeIndexConfigured = true) (ha : env.pineconeClientAvailable = true)
    (pms : List PineconeMatch) (hq : env.pineconeQuery = Except.ok pms) (hne : pms ≠ []) :
    queryPineconeFallback env = (pms.map Match.pinecone, [Call.pineconeQuery]) := by
  unfold queryPineconeFallback
  rw [hc, hq]
  simp [ha, List.length_pos.mpr hne]

theorem queryPineconeFallback_fst_shape (env : QueryEnv) :
    (queryPineconeFallback env).1 = [] ∨
      ∃ pms : List PineconeMatch, (queryPineconeFallback env).1 = pms.map Match.pinecone := by
  obtain ⟨pgS, cfg, avail, pq⟩ := env
  unfold queryPineconeFallback
  cases cfg with
  | false => left; rfl
  | true =>
    cases avail with
    | false => left; rfl
    | true =>
      cases pq with
      | error e => left; rfl
      | ok pms =>
        by_cases hlen : pms.length > 0
        · right
          exact ⟨pms, by simp [hlen]⟩
        · left
          simp [hlen]

theorem queryPineconeFallback_error_fst (env : QueryEnv) (e : String)
    (hq : env.pineconeQuery = Except.error e) :
    (queryPineconeFallback env).1 = [] := by
  unfold queryPineconeFallback
  rw [hq]
  cases hc : env.pineconeIndexConfigured <;>
    cases ha : env.pineconeClientAvailable <;> rfl

theorem queryPineconeFallback_unconfigured (env : QueryEnv)
    (hc : env.pineconeIndexConfigured = false) :
    queryPineconeFallback env = ([], []) := by
  unfold queryPineconeFallback
  rw [hc]
  rfl

theorem queryEmbeddings_fst_shape (env : QueryEnv) (v : Vec) (k : Nat) :
    (queryEmbeddings env v k).1 = [] ∨
      (∃ res : List PgMatch, (queryEmbeddings env v k).1 = res.map Match.pg) ∨
      (∃ pms : List PineconeMatch, (queryEmbeddings env v k).1 = pms.map Match.pinecone) := by
  by_cases hv : v.length = 1536
  · cases hp : env.pgSearch with
    | ok res =>
      by_cases hne : res = []
      · subst hne
        rw [queryEmbeddings_of_body_ok env v k _ _ (queryEmbeddingsBody_pg_empty env v k hv hp)]
        rcases queryPineconeFallback_fst_shape env with h | ⟨pms, h⟩
        · exact Or.inl h
        · exact Or.inr (Or.inr ⟨pms, h⟩)
      · rw [queryEmbeddings_of_body_ok env v k _ _
          (queryEmbeddingsBody_pg_hit env v k hv res hp hne)]
        exact Or.inr (Or.inl ⟨res, rfl⟩)
    | error e =>
      rw [queryEmbeddings_of_body_ok env v k _ _
        (queryEmbeddingsBody_pg_error env v k hv e hp)]
      rcases queryPineconeFallback_fst_shape env with h | ⟨pms, h⟩
      · exact Or.inl h
      · exact Or.inr (Or.inr ⟨pms, h⟩)
  · rw [queryEmbeddings_of_body_error env v k _ _ (queryEmbeddingsBody_dim_bad env v k hv)]
    exact Or.inl rfl

theorem queryEmbeddings_trace_head (env : QueryEnv) (v : Vec) (k : Nat) :
    (queryEmbeddings env v k).2 = [] ∨
      (queryEmbeddings env v k).2.head? = some Call.pgSearch := by
  by_cases hv : v.length = 1536
  · cases hp : env.pgSearch with
    | ok res =>
      by_cases hne : res = []
      · subst hne
        rw [queryEmbeddings_of_body_ok env v k _ _ (queryEmbeddingsBody_pg_empty env v k hv hp)]
        exact Or.inr rfl
      · rw [queryEmbeddings_of_body_ok env v k _ _
          (queryEmbeddingsBody_pg_hit env v k hv res hp hne)]
        exact Or.inr rfl
    | error e =>
      rw [queryEmbeddings_of_body_ok env v k _ _
        (queryEmbeddingsBody_pg_error env v k hv e hp)]
      exact Or.inr rfl
  · rw [queryEmbeddings_of_body_error env v k _ _ (queryEmbeddingsBody_dim_bad env v k hv)]
    exact Or.inl rfl

/-! ## Claim theorems for the dual vector store -/

/-- C1: for every vector whose length differs from 1536, `embedText`
raises instead of returning the service vector, `storeEmbedding` raises
before performing any storage call, and `queryEmbeddings` raises the
dimension error internally before any network/storage call (its outer
catch then surfaces the empty list, with an empty call trace). -/
theorem dimension_check_rejects_everywhere (v : Vec) (hv : v.length ≠ 1536) :
    (∀ (env : EmbedEnv) (t : String), jsTrim t ≠ "" → env.apiKeySet = true →
        env.response (cleanText t) = EmbedResponse.ok v →
        ∃ e, (embedText env t).1 = Except.error e) ∧
    (∀ (env : StoreEnv) (id : String) (md : StoreMetadata),
        ∃ e, storeEmbedding env id v md =
          { result := Except.error e, errors := [], trace := [] }) ∧
    (∀ (env : QueryEnv) (k : Nat),
        (∃ e, queryEmbeddingsBody env v k = (Except.error e, [])) ∧
        queryEmbeddings env v k = ([], [])) := by
  refine ⟨?_, ?_, ?_⟩
  · intro env t ht hk hr
    refine ⟨"Invalid embedding dimensions: " ++ Nat.repr v.length ++ ", expected 1536", ?_⟩
    unfold embedText
    rw [if_neg ht, hk, hr]
    simp [hv]
  · intro env id md
    refine ⟨"Invalid embedding: expected 1536 dimensions, got " ++ Nat.repr v.length, ?_⟩
    unfold storeEmbedding
    rw [if_pos hv]
  · intro env k
    exact ⟨⟨_, queryEmbeddingsBody_dim_bad env v k hv⟩,
      queryEmbeddings_of_body_error env v k _ _ (queryEmbeddingsBody_dim_bad env v k hv)⟩

/-- Witness for `dimension_check_rejects_everywhere` at the concrete
one-element vector `[0]`. -/
theorem dimension_check_rejects_everywhere_witness :
    (∃ e, (embedText ⟨true, fun _ => EmbedResponse.ok [(0 : ℚ)]⟩ "hi").1 =
      Except.error e) ∧
    (∃ e, storeEmbedding ⟨Except.ok (), false, false, Except.ok ()⟩ "id-1" [(0 : ℚ)]
        ⟨"c", "f", "t", 0, "now", "d", "u"⟩ =
      { result := Except.error e, errors := [], trace := [] }) ∧
    queryEmbeddings ⟨Except.ok [], false, false, Except.ok []⟩ [(0 : ℚ)] 5 = ([], []) := by
  have h := dimension_check_rejects_everywhere [(0 : ℚ)] (by decide)
  exact ⟨h.1 ⟨true, fun _ => EmbedResponse.ok [(0 : ℚ)]⟩ "hi" (by decide) rfl rfl,
    h.2.1 ⟨Except.ok (), false, false, Except.ok ()⟩ "id-1" ⟨"c", "f", "t", 0, "now", "d", "u"⟩,
    (h.2.2 ⟨Except.ok [], false, false, Except.ok []⟩ 5).2⟩

/-- C2 as amended: the primary store is searched first (the call trace is
empty or begins with the PostgreSQL search); when the primary returns at
least one match those matches are returned and Pinecone is never queried;
when the primary returns zero matches and Pinecone is configured with
results, the Pinecone matches are returned untranslated, in their native
shape (`pms.map Match.pinecone` — consumers must duck-type the two
shapes); a single call never mixes results of the two stores. -/
theorem search_primary_first_then_secondary (env : QueryEnv) (v : Vec) (k : Nat)
    (hv : v.length = 1536) :
    (∀ res : List PgMatch, env.pgSearch = Except.ok res → res ≠ [] →
        queryEmbeddings env v k = (res.map Match.pg, [Call.pgSearch])) ∧
    (∀ pms : List PineconeMatch, env.pgSearch = Except.ok [] →
        env.pineconeIndexConfigured = true → env.pineconeClientAvailable = true →
        env.pineconeQuery = Except.ok pms → pms ≠ [] →
        queryEmbeddings env v k =
          (pms.map Match.pinecone, [Call.pgSearch, Call.pineconeQuery])) ∧
    ((queryEmbeddings env v k).1 = [] ∨
      (∃ res : List PgMatch, (queryEmbeddings env v k).1 = res.map Match.pg) ∨
      (∃ pms : List PineconeMatch,
        (queryEmbeddings env v k).1 = pms.map Match.pinecone)) ∧
    ((queryEmbeddings env v k).2 = [] ∨
      (queryEmbeddings env v k).2.head? = some Call.pgSearch) := by
  refine ⟨?_, ?_, queryEmbeddings_fst_shape env v k, queryEmbeddings_trace_head env v k⟩
  · intro res hp hne
    exact queryEmbeddings_of_body_ok env v k _ _
      (queryEmbeddingsBody_pg_hit env v k hv res hp hne)
  · intro pms hp hc ha hq hne
    rw [queryEmbeddings_of_body_ok env v k _ _ (queryEmbeddingsBody_pg_empty env v k hv hp),
      queryPineconeFallback_hit env hc ha pms hq hne]

/-- Witness for `search_primary_first_then_secondary`: a primary hit
(secondary untouched) and a primary miss with a Pinecone fallback hit. -/
theorem search_primary_first_then_secondary_witness :
    queryEmbeddings ⟨Except.ok [⟨"e1", "d1", "alpha", [], 1⟩], true, true, Except.ok []⟩
        (List.replicate 1536 (0 : ℚ)) 5 =
      ([Match.pg ⟨"e1", "d1", "alpha", [], 1⟩], [Call.pgSearch]) ∧
    queryEmbeddings ⟨Except.ok [], true, true, Except.ok [⟨"p1", 1, [("content", "beta")]⟩]⟩
        (List.replicate 1536 (0 : ℚ)) 5 =
      ([Match.pinecone ⟨"p1", 1, [("content", "beta")]⟩],
        [Call.pgSearch, Call.pineconeQuery]) := by
  constructor
  · exact (search_primary_first_then_secondary _ _ 5 (by simp)).1
      [⟨"e1", "d1", "alpha", [], 1⟩] rfl (by decide)
  · exact (search_primary_first_then_secondary _ _ 5 (by simp)).2.1
      [⟨"p1", 1, [("content", "beta")]⟩] rfl rfl rfl rfl (by decide)

/-- C2 counterexample to the translation conjunct: on a primary miss with
a configured Pinecone result, `queryEmbeddings` returns the raw Pinecone
match (rag.ts 210 returns `results.matches` as-is).  The returned value
has no `content` field — unlike a primary-store row, whose shape is the
common `{id, content, metadata, similarity}` result shape — so the
secondary's matches are *not* translated to the common shape and
consumers must duck-type both shapes (rag.ts 267-271). -/
theorem secondary_matches_returned_untranslated :
    (queryEmbeddings
        ⟨Except.ok [], true, true, Except.ok [⟨"p1", 1, [("content", "beta")]⟩]⟩
        (List.replicate 1536 (0 : ℚ)) 5).1 =
      [Match.pinecone ⟨"p1", 1, [("content", "beta")]⟩] ∧
    (Match.pinecone ⟨"p1", 1, [("content", "beta")]⟩).contentField = none ∧
    (Match.pg ⟨"e1", "d1", "alpha", [], 1⟩).contentField = some "alpha" := by
  refine ⟨?_, rfl, rfl⟩
  have hb := queryEmbeddingsBody_pg_empty
    (⟨Except.ok [], true, true, Except.ok [⟨"p1", 1, [("content", "beta")]⟩]⟩ : QueryEnv)
    (List.replicate 1536 (0 : ℚ)) 5 (by simp) rfl
  rw [queryPineconeFallback_hit _ rfl rfl [⟨"p1", 1, [("content", "beta")]⟩] rfl
    (by decide)] at hb
  rw [queryEmbeddings_of_body_ok _ _ 5 _ _ hb]
  rfl

/-- C10: `queryEmbeddings` is total at its interface — a wrong-dimension
vector, a failing primary search with no secondary configured, or failures
of both stores all yield the empty list, and any error raised inside the
body is converted by the outer catch into the empty list. -/
theorem query_embeddings_never_raises (env : QueryEnv) (v : Vec) (k : Nat) :
    (v.length ≠ 1536 → queryEmbeddings env v k = ([], [])) ∧
    (∀ (e : String) (tr : List Call), queryEmbeddingsBody env v k = (Except.error e, tr) →
        queryEmbeddings env v k = ([], tr)) ∧
    (∀ e : String, env.pgSearch = Except.error e → env.pineconeIndexConfigured = false →
        (queryEmbeddings env v k).1 = []) ∧
    (∀ e e2 : String, env.pgSearch = Except.error e → env.pineconeQuery = Except.error e2 →
        (queryEmbeddings env v k).1 = []) := by
  refine ⟨?_, ?_, ?_, ?_⟩
  · intro hv
    exact queryEmbeddings_of_body_error env v k _ _ (queryEmbeddingsBody_dim_bad env v k hv)
  · intro e tr hb
    exact queryEmbeddings_of_body_error env v k e tr hb
  · intro e hp hc
    by_cases hv : v.length = 1536
    · rw [queryEmbeddings_of_body_ok env v k _ _ (queryEmbeddingsBody_pg_error env v k hv e hp)]
      rw [queryPineconeFallback_unconfigured env hc]
    · rw [queryEmbeddings_of_body_error env v k _ _ (queryEmbeddingsBody_dim_bad env v k hv)]
  · intro e e2 hp hq
    by_cases hv : v.length = 1536
    · rw [queryEmbeddings_of_body_ok env v k _ _ (queryEmbeddingsBody_pg_error env v k hv e hp)]
      exact queryPineconeFallback_error_fst env e2 hq
    · rw [queryEmbeddings_of_body_error env v k _ _ (queryEmbeddingsBody_dim_bad env v k hv)]

/-- Witness for `query_embeddings_never_raises`: a wrong-dimension vector
and an environment where both stores fail. -/
theorem query_embeddings_never_raises_witness :
    queryEmbeddings ⟨Except.ok [], false, false, Except.ok []⟩ [(1 : ℚ)] 3 = ([], []) ∧
    (queryEmbeddings ⟨Except.error "pg down", true, true, Except.error "pinecone down"⟩
        (List.replicate 1536 (0 : ℚ)) 3).1 = [] := by
  constructor
  · exact (query_embeddings_never_raises ⟨Except.ok [], false, false, Except.ok []⟩
      [(1 : ℚ)] 3).1 (by decide)
  · exact (query_embeddings_never_raises _ _ 3).2.2.2 "pg down" "pinecone down" rfl rfl

/-! ## Characterization lemmas for `storeEmbedding` and `embedText` -/

theorem dbEmbeddingsCreate_ok (outcome : Except String Unit) (id : String) (v : Vec)
    (hv : v.length = 1536) (u : Unit) (ho : outcome = Except.ok u) :
    dbEmbeddingsCreate outcome id v = (Except.ok (), [Call.embeddingsCreate id]) := by
  unfold dbEmbeddingsCreate
  rw [if_neg (by simp [hv]), ho]

theorem dbEmbeddingsCreate_error (outcome : Except String Unit) (id : String) (v : Vec)
    (hv : v.length = 1536) (e : String) (ho : outcome = Except.error e) :
    dbEmbeddingsCreate outcome id v = (Except.error e, [Call.embeddingsCreate id]) := by
  unfold dbEmbeddingsCreate
  rw [if_neg (by simp [hv]), ho]

theorem embedText_ok (env : EmbedEnv) (t : String) (ht : jsTrim t ≠ "")
    (hk : env.apiKeySet = true) (v : Vec) (hr : env.response (cleanText t) = EmbedResponse.ok v)
    (hv : v.length = 1536) :
    embedText env t = (Except.ok v, [Call.embedFetch]) := by
  unfold embedText
  rw [if_neg ht, hk, hr]
  simp [hv]

/-! ## Claim theorems for the dual-store write -/

/-- C6: with a valid vector, `storeEmbedding` performs the PostgreSQL
write first (the trace begins with it); a primary failure propagates to
the caller with no Pinecone upsert attempted; after a successful primary
write the call succeeds, and a configured-Pinecone upsert failure is
collected in the errors list without affecting the successful result. -/
theorem store_primary_critical_secondary_best_effort (env : StoreEnv) (id : String)
    (v : Vec) (md : StoreMetadata) (hv : v.length = 1536) :
    (∀ e : String, env.pgCreate = Except.error e →
        storeEmbedding env id v md =
          { result := Except.error e,
            errors := ["PostgreSQL storage failed: " ++ e],
            trace := [Call.embeddingsCreate id] }) ∧
    (∀ u : Unit, env.pgCreate = Except.ok u →
        (storeEmbedding env id v md).result = Except.ok () ∧
        (storeEmbedding env id v md).trace.head? = some (Call.embeddingsCreate id)) ∧
    (∀ (u : Unit) (e : String), env.pgCreate = Except.ok u →
        env.pineconeIndexConfigured = true → env.pineconeClientAvailable = true →
        env.pineconeUpsert = Except.error e →
        storeEmbedding env id v md =
          { result := Except.ok (),
            errors := ["Pinecone storage failed: " ++ e],
            trace := [Call.embeddingsCreate id, Call.pineconeUpsert id] }) := by
  refine ⟨?_, ?_, ?_⟩
  · intro e he
    unfold storeEmbedding
    rw [if_neg (by simp [hv])]
    rw [dbEmbeddingsCreate_error env.pgCreate id v hv e he]
  · intro u hu
    unfold storeEmbedding
    rw [if_neg (by simp [hv])]
    rw [dbEmbeddingsCreate_ok env.pgCreate id v hv u hu]
    cases hc : env.pineconeIndexConfigured with
    | false => exact ⟨rfl, rfl⟩
    | true =>
      cases ha : env.pineconeClientAvailable with
      | false => exact ⟨rfl, rfl⟩
      | true =>
        cases hq : env.pineconeUpsert with
        | error e => exact ⟨rfl, rfl⟩
        | ok u2 => exact ⟨rfl, rfl⟩
  · intro u e hu hc ha he
    unfold storeEmbedding
    rw [if_neg (by simp [hv])]
    rw [dbEmbeddingsCreate_ok env.pgCreate id v hv u hu, hc, ha, he]
    rfl

/-- Witness for `store_primary_critical_secondary_best_effort`: a primary
failure that aborts with no Pinecone call, and a primary success whose
Pinecone failure is swallowed. -/
theorem store_primary_critical_secondary_best_effort_witness :
    storeEmbedding ⟨Except.error "pg down", true, true, Except.ok ()⟩ "c-0"
        (List.replicate 1536 (0 : ℚ)) ⟨"c", "f", "t", 0, "now", "d", "u"⟩ =
      { result := Except.error "pg down",
        errors := ["PostgreSQL storage failed: pg down"],
        trace := [Call.embeddingsCreate "c-0"] } ∧
    storeEmbedding ⟨Except.ok (), true, true, Except.error "pinecone down"⟩ "c-0"
        (List.replicate 1536 (0 : ℚ)) ⟨"c", "f", "t", 0, "now", "d", "u"⟩ =
      { result := Except.ok (),
        errors := ["Pinecone storage failed: pinecone down"],
        trace := [Call.embeddingsCreate "c-0", Call.pineconeUpsert "c-0"] } := by
  constructor
  · exact (store_primary_critical_secondary_best_effort _ "c-0" _ _ (by simp)).1
      "pg down" rfl
  · exact (store_primary_critical_secondary_best_effort _ "c-0" _ _ (by simp)).2.2
      () "pinecone down" rfl rfl rfl rfl

/-! ## Claim theorems for context retrieval -/

/-- C5: `retrieveContext` returns the empty string at once, with no
external call at all, for every query that trims to empty; and every
later failure — the embedding call raising, the search coming back empty,
or the re-rank comparator raising on Pinecone-shaped matches — is caught
and converted into an empty-string result. -/
theorem retrieve_context_lazy_and_total (env : RagEnv) (q : String) :
    (jsTrim q = "" → retrieveContext env q = ("", [])) ∧
    (jsTrim q ≠ "" → ∀ (e : String) (tr : List Call),
        embedText env.embed
            ("Use the document only. Extract the answer. Question: " ++ q) =
          (Except.error e, tr) →
        retrieveContext env q = ("", tr)) ∧
    (jsTrim q ≠ "" → ∀ (ve : Vec) (tr tr2 : List Call),
        embedText env.embed
            ("Use the document only. Extract the answer. Question: " ++ q) =
          (Except.ok ve, tr) →
        queryEmbeddings env.query ve 10 = ([], tr2) →
        retrieveContext env q = ("", tr ++ tr2)) ∧
    (jsTrim q ≠ "" → ∀ (ve : Vec) (tr : List Call) (ms : List Match) (tr2 : List Call),
        embedText env.embed
            ("Use the document only. Extract the answer. Question: " ++ q) =
          (Except.ok ve, tr) →
        queryEmbeddings env.query ve 10 = (ms, tr2) →
        sortThrows ms = true →
        retrieveContext env q = ("", tr ++ tr2)) := by
  refine ⟨?_, ?_, ?_, ?_⟩
  · intro hq
    unfold retrieveContext
    rw [if_pos hq]
  · intro hq e tr hE
    unfold retrieveContext
    rw [if_neg hq]
    simp only [hE]
  · intro hq ve tr tr2 hE hQ
    unfold retrieveContext
    rw [if_neg hq]
    simp only [hE, hQ]
    simp [sortThrows]
  · intro hq ve tr ms tr2 hE hQ hS
    unfold retrieveContext
    rw [if_neg hq]
    simp only [hE, hQ]
    simp [hS]

/-- Witness for `retrieve_context_lazy_and_total`: a whitespace-only query
and a query whose embedding call fails for lack of a credential. -/
theorem retrieve_context_lazy_and_total_witness :
    retrieveContext
        ⟨⟨true, fun _ => EmbedResponse.invalidBody⟩,
          ⟨Except.ok [], false, false, Except.ok []⟩⟩ "   " = ("", []) ∧
    retrieveContext
        ⟨⟨false, fun _ => EmbedResponse.invalidBody⟩,
          ⟨Except.ok [], false, false, Except.ok []⟩⟩ "hello" = ("", []) := by
  constructor
  · exact (retrieve_context_lazy_and_total _ "   ").1 (by decide)
  · exact (retrieve_context_lazy_and_total _ "hello").2.1 (by decide)
      "OPENROUTER_API_KEY is not set" [] rfl

/-! ## Claim theorems for the lexical re-rank -/

/-- The match with content "the sky is blue" from the re-ranking example,
given the *worse* vector-similarity score of the pair. -/
def skyMatch : Match := Match.pg ⟨"m1", "d1", "the sky is blue", [], 0⟩

/-- The match with content "cats are mammals" from the re-ranking example,
given the *better* vector-similarity score of the pair. -/
def catsMatch : Match := Match.pg ⟨"m2", "d1", "cats are mammals", [], 1⟩

/-- C7: the re-rank inside `retrieveContext` sorts the over-fetched
matches by `textSimilarity` against the original (un-rewritten) query —
the result is a permutation of the matches, sorted descending by the
lexical score, and `retrieveContext` assembles its context from
`rerank query ms` where `query` is the original query; on the concrete
example, "the sky is blue" sorts ahead of "cats are mammals" for query
"sky blue" from either starting order, despite its worse vector rank. -/
theorem rerank_lexical_against_original_query :
    (∀ (q : String) (ms : List Match), (rerank q ms).Perm ms) ∧
    (∀ (q : String) (ms : List Match), (rerank q ms).Sorted (fun a b =>
        textSimilarity q ((Match.contentField b).getD "") ≤
          textSimilarity q ((Match.contentField a).getD ""))) ∧
    (∀ (env : RagEnv) (q : String) (ve : Vec) (tr : List Call) (ms : List Match)
        (tr2 : List Call),
        jsTrim q ≠ "" →
        embedText env.embed
            ("Use the document only. Extract the answer. Question: " ++ q) =
          (Except.ok ve, tr) →
        queryEmbeddings env.query ve 10 = (ms, tr2) →
        sortThrows ms = false → ms ≠ [] →
        retrieveContext env q =
          (joinSep "\n\n" (((rerank q ms).map Match.extractedContent).filter
            (fun s => s ≠ "")), tr ++ tr2)) ∧
    (rerank "sky blue" [catsMatch, skyMatch] = [skyMatch, catsMatch] ∧
      rerank "sky blue" [skyMatch, catsMatch] = [skyMatch, catsMatch]) := by
  refine ⟨?_, ?_, ?_, by decide, by decide⟩
  · intro q ms
    exact List.perm_insertionSort (rerankRel q) ms
  · intro q ms
    exact (List.sorted_insertionSort (rerankRel q) ms).imp
      (fun h => (textSimilarity_le_iff q _ _).mpr h)
  · intro env q ve tr ms tr2 hq hE hQ hS hne
    unfold retrieveContext
    rw [if_neg hq]
    simp only [hE, hQ]
    simp [hS, List.length_eq_zero, hne]

/-- Witness for `rerank_lexical_against_original_query`: the full
`retrieveContext` run on query "sky blue" where the vector search returns
the cats match first. -/
theorem rerank_lexical_against_original_query_witness :
    retrieveContext
        ⟨⟨true, fun _ => EmbedResponse.ok (List.replicate 1536 0)⟩,
          ⟨Except.ok [⟨"m2", "d1", "cats are mammals", [], 1⟩,
            ⟨"m1", "d1", "the sky is blue", [], 0⟩], false, false, Except.ok []⟩⟩
        "sky blue" =
      (joinSep "\n\n" (((rerank "sky blue" [catsMatch, skyMatch]).map
          Match.extractedContent).filter (fun s => s ≠ "")),
        [Call.embedFetch, Call.pgSearch]) := by
  refine rerank_lexical_against_original_query.2.2.1 _ "sky blue"
    (List.replicate 1536 0) [Call.embedFetch] [catsMatch, skyMatch] [Call.pgSearch]
    (by decide) ?_ ?_ (by decide) (by decide)
  · exact embedText_ok _ _ (by decide) rfl _ rfl (by simp)
  · exact queryEmbeddings_of_body_ok _ _ 10 _ _
      (queryEmbeddingsBody_pg_hit _ _ 10 (by simp)
        [⟨"m2", "d1", "cats are mammals", [], 1⟩, ⟨"m1", "d1", "the sky is blue", [], 0⟩]
        rfl (by decide))

/-! ## Chat route — `POST` (src/unnamed/part_003) -/

/-- The system message built (but never sent) at part_003 lines 62-65:
a context-bearing instruction when context exists, a neutral assistant
instruction otherwise. -/
def systemMessage (ragContext : String) : String :=
  if ragContext ≠ "" then
    "You are a helpful AI assistant. Use the following context to answer questions when relevant:\n\n"
      ++ ragContext ++
      "\n\nIf the context doesn\x27t contain relevant information, answer based on your general knowledge."
  else
    "You are a helpful AI assistant."

/-- The context message actually prepended to the completion request
(part_003 lines 114-117): an assistant-role message carrying the raw
retrieved context after a fixed header. -/
def contextMessage (ragContext : String) : OutMsg :=
  { role := "assistant",
    content := MsgContent.text ("Here is relevant document context:\n\n" ++ ragContext) }

/-- Message normalization at part_003 lines 69-92: drop messages with a
falsy role or content, lower-case the role (anything not "assistant"
becomes "user"), and attach the images as multimodal parts when the
entry's index in the filtered array equals `messages.length - 1`. -/
def processMessages (messages : List InMsg) (images : List String) : List OutMsg :=
  ((messages.filter (fun m => !(m.role == "") && !(m.content == ""))).enum).map
    (fun p =>
      let role := if jsToLower p.2.role = "assistant" then "assistant" else "user"
      if role = "user" && decide (0 < images.length) && p.1 == messages.length - 1 then
        { role := role, content := MsgContent.multimodal p.2.content images }
      else
        { role := role, content := MsgContent.text p.2.content })

/-- Environment of the chat `POST` handler: the parsed request body and
the outcome of each external call it can make. -/
structure ChatEnv where
  userId : Option String
  messages : List InMsg
  images : Option (List String)
  initDb : Except String Unit
  usersGetById : Except String Bool
  usersUpsert : Except String Unit
  rag : RagEnv
  openrouterOk : Bool
  openrouterStatus : Nat
  chatMessageCreate : Except String Unit

/-- Responses of the chat handler visible before/at streaming. -/
inductive ChatResponse where
  | jsonError (status : Nat)
  | streamStarted (model : String)
deriving DecidableEq

/-- The user check/create block at part_003 lines 33-50: `getById`, then
`upsert` only when the user is absent; every outcome (including errors of
either call) is swallowed and execution continues. -/
def chatUserEnsureTrace (env : ChatEnv) (uid : String) : List Call :=
  match env.usersGetById with
  | .error _ => [Call.usersGetById uid]
  | .ok true => [Call.usersGetById uid]
  | .ok false => [Call.usersGetById uid, Call.usersUpsert uid]

/-- The chat path actually established an existing user row: the check
succeeded and found the user, or it succeeded finding none and the
lazy upsert succeeded. -/
def chatUserEnsured (env : ChatEnv) : Prop :=
  env.usersGetById = Except.ok true ∨
    (env.usersGetById = Except.ok false ∧ env.usersUpsert = Except.ok ())

instance (env : ChatEnv) : Decidable (chatUserEnsured env) := by
  unfold chatUserEnsured
  infer_instance

/-- The chat `POST` handler (part_003 lines 7-199) up to the start of
streaming: auth check, swallowed db init, swallowed user check/create,
context retrieval from the last message, prompt assembly (the computed
`systemMessage` is dead — the request prepends `contextMessage` instead),
the completion call, and the best-effort chat-message insert performed
once the completion responded ok. -/
def chatPOST (env : ChatEnv) : ChatResponse × List Call :=
  match env.userId with
  | none => (.jsonError 401, [])
  | some userId =>
    let userTrace := chatUserEnsureTrace env userId
    match env.messages.getLast? with
    | none => (.jsonError 500, userTrace)
    | some lastMessage =>
      let rc := retrieveContext env.rag lastMessage.content
      let _deadSystemMessage := systemMessage rc.1
      let userMessages := processMessages env.messages (env.images.getD [])
      let model := if 0 < (env.images.getD []).length then "google/gemini-flash-1.5"
        else "microsoft/phi-3-medium-128k-instruct"
      let requestMessages := contextMessage rc.1 :: userMessages
      let tr := userTrace ++ rc.2 ++ [Call.openrouterChat requestMessages]
      if env.openrouterOk = false then (.jsonError env.openrouterStatus, tr)
      else (.streamStarted model, tr ++ [Call.chatMessagesCreate userId])

/-! ## Stream translation — the `ReadableStream` body
(part_003 lines 147-191) -/

/-- Normalized server-sent events the handler emits. -/
inductive StreamEvent where
  | textDelta (text : String)
  | done
deriving DecidableEq

/-- Handling of one `data: `-prefixed line (part_003 lines 165-182):
forward `[DONE]`, otherwise parse the JSON payload and emit a text-delta
event when `choices[0].delta.content` is a non-empty string.
`parseDelta` abstracts `JSON.parse` + the optional-chain — `none` for a
parse failure or a missing content field. -/
def processLine (parseDelta : String → Option String) (line : String) :
    List StreamEvent :=
  if jsStartsWith line "data: " then
    if jsDrop 6 line = "[DONE]" then [StreamEvent.done]
    else
      match parseDelta (jsDrop 6 line) with
      | some delta => if delta ≠ "" then [StreamEvent.textDelta delta] else []
      | none => []
  else []

/-- Handling of one upstream read (part_003 lines 162-183): split on
newlines, keep the lines with non-blank trim, process each. -/
def processChunk (parseDelta : String → Option String) (chunk : String) :
    List StreamEvent :=
  ((jsSplit chunk '\n').filter (fun l => !(jsTrim l == ""))).flatMap
    (processLine parseDelta)

/-- The whole read loop (part_003 lines 158-184): the upstream reads are
processed in arrival order and the emitted events are their concatenated
translations; the stream is closed afterwards with no extra event. -/
def processStream (parseDelta : String → Option String) (reads : List String) :
    List StreamEvent :=
  reads.flatMap (processChunk parseDelta)

/-! ## Upload route — `POST` (src/src/app/api/upload/route.ts) -/

/-- The uploaded file as the route sees it. -/
structure UploadFile where
  name : String
  size : Nat
  mimeType : String
deriving DecidableEq

/-- Environment of the upload `POST` handler: the parsed form data, the
outcome of each external call, and the per-chunk environments of the
embedding/storage calls made inside the chunk loop. -/
structure UploadEnv where
  userId : Option String
  file : Option UploadFile
  initDb : Except String Unit
  usersGetById : Except String Bool
  usersUpsert : Except String Unit
  processImage : Except String String
  extractText : Except String String
  documentId : String
  documentsCreate : Except String Unit
  chunkText : String → List String
  uploadedAt : String
  embedEnvAt : Nat → EmbedEnv
  storeEnvAt : Nat → StoreEnv
  pgCreateAt : Nat → Except String Unit

/-- `SUPPORTED_IMAGE_TYPES` (route.ts 15-18). -/
def supportedImageTypes : List String :=
  ["image/png", "image/jpeg", "image/jpg", "image/gif",
    "image/webp", "image/bmp", "image/svg+xml", "image/tiff", "image/tif"]

/-- The image dispatch test (route.ts 113). -/
def isImageMime (mime : String) : Bool :=
  supportedImageTypes.contains mime || jsStartsWith mime "image/"

/-- The document dispatch chain (route.ts 136-143). -/
def isDocMime (mime : String) : Bool :=
  mime == "application/pdf" ||
    mime == "application/vnd.openxmlformats-officedocument.wordprocessingml.document" ||
    mime == "application/msword" ||
    mime == "text/plain"

/-- `ensureUserExists` (route.ts 28-56): `getById`, lazily `upsert` when
absent; any error is rethrown as "User creation failed". -/
def ensureUserExists (env : UploadEnv) (userId : String) :
    Except String String × List Call :=
  match env.usersGetById with
  | .error e =>
      (.error ("User creation failed: " ++ e), [Call.usersGetById userId])
  | .ok true => (.ok userId, [Call.usersGetById userId])
  | .ok false =>
      match env.usersUpsert with
      | .error e =>
          (.error ("User creation failed: " ++ e),
            [Call.usersGetById userId, Call.usersUpsert userId])
      | .ok _ => (.ok userId, [Call.usersGetById userId, Call.usersUpsert userId])

/-- The success body of the upload response (route.ts 271-282). -/
structure UploadSuccess where
  documentId : String
  chunksProcessed : Nat
  totalChunks : Nat
  successCount : Nat
  failCount : Nat
  extractedTextPreview : String
deriving DecidableEq

/-- Responses of the upload handler. -/
inductive UploadResponse where
  | jsonError (status : Nat)
  | imageResponse (base64 : String) (fileName : String) (fileType : String)
  | success (body : UploadSuccess)
deriving DecidableEq

/-- One iteration of the chunk loop (route.ts 215-267): embed the chunk
(an embedding error or an empty embedding counts the chunk failed), then
the swallowed `storeEmbedding` call, then the direct PostgreSQL insert
whose outcome decides success/failure of the chunk. -/
def processUploadChunk (env : UploadEnv) (file : UploadFile) (userId : String)
    (i : Nat) (chunk : String) : Bool × List Call :=
  let er := embedText (env.embedEnvAt i) chunk
  match er.1 with
  | .error _ => (false, er.2)
  | .ok embedding =>
      if embedding.length = 0 then (false, er.2)
      else
        let sr := storeEmbedding (env.storeEnvAt i)
          (env.documentId ++ "-chunk-" ++ Nat.repr i) embedding
          ⟨chunk, file.name, file.mimeType, i, env.uploadedAt, env.documentId, userId⟩
        let pr := dbEmbeddingsCreate (env.pgCreateAt i)
          (env.documentId ++ "-chunk-" ++ Nat.repr i) embedding
        match pr.1 with
        | .ok _ => (true, er.2 ++ sr.trace ++ pr.2)
        | .error _ => (false, er.2 ++ sr.trace ++ pr.2)

/-- The whole chunk loop: success count, failure count and trace over the
enumerated chunks. -/
def uploadChunkLoop (env : UploadEnv) (file : UploadFile) (userId : String) :
    List (Nat × String) → Nat × Nat × List Call
  | [] => (0, 0, [])
  | p :: rest =>
      let r := processUploadChunk env file userId p.1 p.2
      let acc := uploadChunkLoop env file userId rest
      if r.1 then (acc.1 + 1, acc.2.1, r.2 ++ acc.2.2)
      else (acc.1, acc.2.1 + 1, r.2 ++ acc.2.2)

/-- The upload `POST` handler (route.ts 58-293): form validation, db
init, the critical `ensureUserExists` step, the image short-circuit, text
extraction, document creation, chunking, the per-chunk loop, and the
success response carrying per-chunk counts and a 500-character preview. -/
def uploadPOST (env : UploadEnv) : UploadResponse × List Call :=
  match env.file with
  | none => (.jsonError 400, [])
  | some file =>
    match env.userId with
    | none => (.jsonError 401, [])
    | some userId =>
      match env.initDb with
      | .error _ => (.jsonError 500, [])
      | .ok _ =>
        match (ensureUserExists env userId).1 with
        | .error _ => (.jsonError 500, (ensureUserExists env userId).2)
        | .ok finalUserId =>
          if isImageMime file.mimeType then
            match env.processImage with
            | .ok b64 =>
                (.imageResponse b64 file.name file.mimeType,
                  (ensureUserExists env userId).2)
            | .error _ => (.jsonError 500, (ensureUserExists env userId).2)
          else if isDocMime file.mimeType then
            match env.extractText with
            | .error _ => (.jsonError 500, (ensureUserExists env userId).2)
            | .ok extractedText =>
              if jsTrim extractedText = "" then
                (.jsonError 400, (ensureUserExists env userId).2)
              else
                match env.documentsCreate with
                | .error _ =>
                    (.jsonError 500,
                      (ensureUserExists env userId).2 ++
                        [Call.documentsCreate env.documentId])
                | .ok _ =>
                  if (env.chunkText extractedText).length = 0 then
                    (.jsonError 400,
                      (ensureUserExists env userId).2 ++
                        [Call.documentsCreate env.documentId])
                  else
                    (.success
                        ⟨env.documentId,
                          (uploadChunkLoop env file finalUserId
                            (env.chunkText extractedText).enum).1,
                          (env.chunkText extractedText).length,
                          (uploadChunkLoop env file finalUserId
                            (env.chunkText extractedText).enum).1,
                          (uploadChunkLoop env file finalUserId
                            (env.chunkText extractedText).enum).2.1,
                          jsTake 500 extractedText ++ "..."⟩,
                      (ensureUserExists env userId).2 ++
                        [Call.documentsCreate env.documentId] ++
                        (uploadChunkLoop env file finalUserId
                          (env.chunkText extractedText).enum).2.2)
          else (.jsonError 400, (ensureUserExists env userId).2)

/-- Child-row writes: rows with a mandatory reference to a user
(documents, embedding chunks, chat messages). -/
def isChildWrite : Call → Bool
  | .documentsCreate _ => true
  | .embeddingsCreate _ => true
  | .chatMessagesCreate _ => true
  | _ => false

/-- The upload path actually established an existing user row. -/
def uploadUserEnsured (env : UploadEnv) : Prop :=
  env.usersGetById = Except.ok true ∨
    (env.usersGetById = Except.ok false ∧ env.usersUpsert = Except.ok ())

instance (env : UploadEnv) : Decidable (uploadUserEnsured env) := by
  unfold uploadUserEnsured
  infer_instance

/-! ## Helper lemmas for the stream translation and the route handlers -/

theorem processChunk_delta_line (pd : String → Option String) (line d : String)
    (h1 : jsStartsWith line "data: " = true)
    (h2 : jsSplit line '\n' = [line])
    (h3 : jsTrim line ≠ "")
    (h4 : jsDrop 6 line ≠ "[DONE]")
    (h5 : pd (jsDrop 6 line) = some d)
    (h6 : d ≠ "") :
    processChunk pd line = [StreamEvent.textDelta d] := by
  unfold processChunk
  rw [h2]
  have hb : (jsTrim line == "") = false := by
    simp [h3]
  simp [hb, processLine, h1, h4, h5, h6]

theorem chatUserEnsureTrace_cons (env : ChatEnv) (uid : String) :
    ∃ t, chatUserEnsureTrace env uid = Call.usersGetById uid :: t := by
  unfold chatUserEnsureTrace
  cases env.usersGetById with
  | error e => exact ⟨[], rfl⟩
  | ok b =>
    cases b with
    | true => exact ⟨[], rfl⟩
    | false => exact ⟨[Call.usersUpsert uid], rfl⟩

theorem ensureUserExists_trace_no_child_write (env : UploadEnv) (uid : String) :
    ∀ c ∈ (ensureUserExists env uid).2, isChildWrite c = false := by
  intro c hc
  unfold ensureUserExists at hc
  cases hg : env.usersGetById with
  | error e =>
      rw [hg] at hc
      simp at hc
      subst hc
      rfl
  | ok b =>
    cases b with
    | true =>
        rw [hg] at hc
        simp at hc
        subst hc
        rfl
    | false =>
        rw [hg] at hc
        cases hu : env.usersUpsert with
        | error e =>
            rw [hu] at hc
            simp at hc
            rcases hc with rfl | rfl <;> rfl
        | ok u =>
            rw [hu] at hc
            simp at hc
            rcases hc with rfl | rfl <;> rfl

theorem ensureUserExists_error_of_not_ensured (env : UploadEnv) (uid : String)
    (h : ¬ uploadUserEnsured env) :
    ∃ e, (ensureUserExists env uid).1 = Except.error e := by
  unfold uploadUserEnsured at h
  push_neg at h
  unfold ensureUserExists
  cases hg : env.usersGetById with
  | error e => exact ⟨"User creation failed: " ++ e, rfl⟩
  | ok b =>
    cases b with
    | true => exact absurd hg h.1
    | false =>
        cases hu : env.usersUpsert with
        | error e => exact ⟨"User creation failed: " ++ e, rfl⟩
        | ok u =>
            exfalso
            apply h.2 hg
            cases u
            exact hu

theorem uploadChunkLoop_counts (env : UploadEnv) (file : UploadFile) (uid : String)
    (l : List (Nat × String)) :
    (uploadChunkLoop env file uid l).1 + (uploadChunkLoop env file uid l).2.1 =
      l.length := by
  induction l with
  | nil => rfl
  | cons p rest ih =>
    unfold uploadChunkLoop
    cases hb : (processUploadChunk env file uid p.1 p.2).1 <;>
      simp only [hb, if_true, if_false, Bool.false_eq_true] <;>
      simp only [List.length_cons] <;> omega

/-! ## Claim theorems for the chat route -/

/-- C4: for an upstream completion stream of n delta-bearing chunks (one
`data: ` line each) followed by the terminal `data: [DONE]` marker, the
handler emits exactly the n normalized text-delta events, in arrival
order, followed by exactly one done marker. -/
theorem stream_emits_deltas_in_order_then_done (pd : String → Option String)
    (encLine : String → String) (deltas : List String)
    (h : ∀ d ∈ deltas,
        jsStartsWith (encLine d) "data: " = true ∧
        jsSplit (encLine d) '\n' = [encLine d] ∧
        jsTrim (encLine d) ≠ "" ∧
        jsDrop 6 (encLine d) ≠ "[DONE]" ∧
        pd (jsDrop 6 (encLine d)) = some d ∧ d ≠ "") :
    processStream pd (deltas.map encLine ++ ["data: [DONE]"]) =
      deltas.map StreamEvent.textDelta ++ [StreamEvent.done] := by
  induction deltas with
  | nil => rfl
  | cons d rest ih =>
    have hd := h d (List.mem_cons_self d rest)
    have hrest := fun x hx => h x (List.mem_cons_of_mem d hx)
    have hsplit : processStream pd ((d :: rest).map encLine ++ ["data: [DONE]"]) =
        processChunk pd (encLine d) ++
          processStream pd (rest.map encLine ++ ["data: [DONE]"]) := by
      simp [processStream]
    rw [hsplit, ih hrest,
      processChunk_delta_line pd (encLine d) d hd.1 hd.2.1 hd.2.2.1 hd.2.2.2.1
        hd.2.2.2.2.1 hd.2.2.2.2.2]
    simp

/-- Witness for `stream_emits_deltas_in_order_then_done` on a 3-chunk
stream. -/
theorem stream_emits_deltas_in_order_then_done_witness :
    processStream (fun s => some s)
        ((["alpha", "beta", "gamma"].map (fun d => "data: " ++ d)) ++
          ["data: [DONE]"]) =
      [StreamEvent.textDelta "alpha", StreamEvent.textDelta "beta",
        StreamEvent.textDelta "gamma", StreamEvent.done] := by
  have h := stream_emits_deltas_in_order_then_done (fun s => some s)
    (fun d => "data: " ++ d) ["alpha", "beta", "gamma"] (by decide)
  simpa using h

/-- C3 (code evaluated at the failing input): on a chat turn whose
retrieved context is empty, the request sent to the completion service
contains the assistant-role context message carrying only the fixed
header — while the computed neutral `systemMessage` for empty context is
not among the contents of any sent message. -/
theorem chat_empty_context_prompt_lacks_neutral_instruction :
    (chatPOST
        ⟨some "u1", [⟨"user", " "⟩], none, Except.ok (), Except.ok true, Except.ok (),
          ⟨⟨true, fun _ => EmbedResponse.invalidBody⟩,
            ⟨Except.ok [], false, false, Except.ok []⟩⟩,
          true, 200, Except.ok ()⟩).2 =
      [Call.usersGetById "u1",
        Call.openrouterChat
          [⟨"assistant", MsgContent.text "Here is relevant document context:\n\n"⟩,
            ⟨"user", MsgContent.text " "⟩],
        Call.chatMessagesCreate "u1"] ∧
    systemMessage "" = "You are a helpful AI assistant." ∧
    MsgContent.text (systemMessage "") ∉
      ([⟨"assistant", MsgContent.text "Here is relevant document context:\n\n"⟩,
        ⟨"user", MsgContent.text " "⟩] : List OutMsg).map OutMsg.content := by
  decide

/-! ## Claim theorems for the user-row invariant (C8) -/

/-- A chat environment in which the user-existence check itself fails
(the database errors on `getById`) while everything downstream succeeds. -/
def chatEnvGetByIdFails : ChatEnv :=
  ⟨some "u1", [⟨"user", " "⟩], none, Except.ok (), Except.error "connection reset",
    Except.ok (),
    ⟨⟨true, fun _ => EmbedResponse.invalidBody⟩,
      ⟨Except.ok [], false, false, Except.ok []⟩⟩,
    true, 200, Except.ok ()⟩

/-- C8 counterexample: in the chat path a failing user check is swallowed
and the chat-message child write is still attempted, so the handler does
not ensure a user row exists before writing the child row. -/
theorem chat_child_write_despite_failed_user_check :
    Call.chatMessagesCreate "u1" ∈ (chatPOST chatEnvGetByIdFails).2 ∧
    ¬ chatUserEnsured chatEnvGetByIdFails := by
  decide

/-- An upload environment for a plain-text document whose single chunk
fails to embed; the user row exists. -/
def uploadEnvOkDoc : UploadEnv :=
  { userId := some "u1", file := some ⟨"notes.txt", 100, "text/plain"⟩,
    initDb := Except.ok (), usersGetById := Except.ok true,
    usersUpsert := Except.ok (),
    processImage := Except.ok "", extractText := Except.ok "Some extracted document text.",
    documentId := "doc-1", documentsCreate := Except.ok (),
    chunkText := fun t => [t], uploadedAt := "2026-01-01",
    embedEnvAt := fun _ => ⟨false, fun _ => EmbedResponse.invalidBody⟩,
    storeEnvAt := fun _ => ⟨Except.ok (), false, false, Except.ok ()⟩,
    pgCreateAt := fun _ => Except.ok () }

/-- C8 amended: the ingestion path performs child-row writes only when
the user row was actually ensured (a failing check/create aborts the
upload before any child write); the chat path runs its user check first
(the trace always begins with `getById`) but only attempts the lazy
ensure — when it is not ensured, that is because the check or the upsert
itself failed, and the message write is attempted regardless. -/
theorem user_row_ensured_upload_best_effort_chat :
    (∀ (env : UploadEnv) (c : Call), c ∈ (uploadPOST env).2 → isChildWrite c = true →
        uploadUserEnsured env) ∧
    (∀ (env : ChatEnv) (uid : String), env.userId = some uid →
        (chatPOST env).2.head? = some (Call.usersGetById uid)) ∧
    (∀ env : ChatEnv, ¬ chatUserEnsured env →
        (∃ e, env.usersGetById = Except.error e) ∨
        (env.usersGetById = Except.ok false ∧
          ∃ e, env.usersUpsert = Except.error e)) := by
  refine ⟨?_, ?_, ?_⟩
  · intro env c hc hw
    obtain ⟨uId, file, initDb, g, up, pImg, ext, docId, dCreate, cText, upAt, eAt,
      sAt, pAt⟩ := env
    cases g with
    | error e =>
        exfalso
        cases file with
        | none => simp [uploadPOST] at hc
        | some f =>
          cases uId with
          | none => simp [uploadPOST] at hc
          | some uid =>
            cases initDb with
            | error e2 => simp [uploadPOST] at hc
            | ok u =>
                simp [uploadPOST, ensureUserExists] at hc
                subst hc
                simp [isChildWrite] at hw
    | ok b =>
      cases b with
      | true => exact Or.inl rfl
      | false =>
        cases up with
        | ok u2 =>
            cases u2
            exact Or.inr ⟨rfl, rfl⟩
        | error e =>
            exfalso
            cases file with
            | none => simp [uploadPOST] at hc
            | some f =>
              cases uId with
              | none => simp [uploadPOST] at hc
              | some uid =>
                cases initDb with
                | error e2 => simp [uploadPOST] at hc
                | ok u =>
                    simp [uploadPOST, ensureUserExists] at hc
                    rcases hc with rfl | rfl <;> simp [isChildWrite] at hw
  · intro env uid hu
    obtain ⟨t, ht⟩ := chatUserEnsureTrace_cons env uid
    unfold chatPOST
    rw [hu]
    cases hl : env.messages.getLast? with
    | none => simp [ht]
    | some lastMessage =>
        by_cases ho : env.openrouterOk = false <;> simp [ht, ho]
  · intro env hne
    unfold chatUserEnsured at hne
    push_neg at hne
    cases hg : env.usersGetById with
    | error e => exact Or.inl ⟨e, rfl⟩
    | ok b =>
      cases b with
      | true => exact absurd hg hne.1
      | false =>
          refine Or.inr ⟨rfl, ?_⟩
          cases hu : env.usersUpsert with
          | error e => exact ⟨e, rfl⟩
          | ok u =>
              exfalso
              apply hne.2 hg
              cases u
              exact hu

/-- Witness for `user_row_ensured_upload_best_effort_chat` at concrete
upload and chat environments. -/
theorem user_row_ensured_upload_best_effort_chat_witness :
    uploadUserEnsured uploadEnvOkDoc ∧
    (chatPOST chatEnvGetByIdFails).2.head? = some (Call.usersGetById "u1") ∧
    ((∃ e, chatEnvGetByIdFails.usersGetById = Except.error e) ∨
      (chatEnvGetByIdFails.usersGetById = Except.ok false ∧
        ∃ e, chatEnvGetByIdFails.usersUpsert = Except.error e)) := by
  refine ⟨?_, ?_, ?_⟩
  · exact user_row_ensured_upload_best_effort_chat.1 uploadEnvOkDoc
      (Call.documentsCreate "doc-1") (by decide) (by decide)
  · exact user_row_ensured_upload_best_effort_chat.2.1 chatEnvGetByIdFails "u1" rfl
  · exact user_row_ensured_upload_best_effort_chat.2.2 chatEnvGetByIdFails (by decide)

/-! ## Claim theorem for upload chunk accounting (C9) -/

/-- C9: for a supported document upload that passes validation and yields
n chunks, the endpoint returns the success response carrying the document
id, per-chunk success and failure counts with `successCount + failCount = n`,
and the 500-character preview of the extracted text — for every possible
combination of per-chunk embedding/storage outcomes. -/
theorem upload_reports_per_chunk_counts (env : UploadEnv) (file : UploadFile)
    (uid fuid text : String)
    (hf : env.file = some file) (hu : env.userId = some uid)
    (hi : env.initDb = Except.ok ())
    (he : (ensureUserExists env uid).1 = Except.ok fuid)
    (him : isImageMime file.mimeType = false)
    (hdoc : isDocMime file.mimeType = true)
    (hx : env.extractText = Except.ok text)
    (ht : ¬ (jsTrim text = ""))
    (hd : env.documentsCreate = Except.ok ())
    (hne : (env.chunkText text).length ≠ 0) :
    ∃ s fc tr,
      uploadPOST env =
        (UploadResponse.success
          ⟨env.documentId, s, (env.chunkText text).length, s, fc,
            jsTake 500 text ++ "..."⟩, tr) ∧
      s + fc = (env.chunkText text).length := by
  obtain ⟨uId, fl, initDb, g, up, pImg, ext, docId, dCreate, cText, upAt, eAt,
    sAt, pAt⟩ := env
  obtain rfl : fl = some file := hf
  obtain rfl : uId = some uid := hu
  obtain rfl : initDb = Except.ok () := hi
  obtain rfl : ext = Except.ok text := hx
  obtain rfl : dCreate = Except.ok () := hd
  set E : UploadEnv := ⟨some uid, some file, Except.ok (), g, up, pImg,
    Except.ok text, docId, Except.ok (), cText, upAt, eAt, sAt, pAt⟩ with hE
  refine ⟨(uploadChunkLoop E file fuid (cText text).enum).1,
    (uploadChunkLoop E file fuid (cText text).enum).2.1,
    (ensureUserExists E uid).2 ++ [Call.documentsCreate docId] ++
      (uploadChunkLoop E file fuid (cText text).enum).2.2, ?_, ?_⟩
  · rw [hE] at he ⊢
    simp [uploadPOST, he, him, hdoc, ht, hne]
  · rw [uploadChunkLoop_counts, hE]
    simp [List.enum_length]

/-- Witness for `upload_reports_per_chunk_counts`: a two-chunk plain-text
upload where the first chunk embeds fine and the second chunk's embedding
call fails. -/
def uploadEnvTwoChunks : UploadEnv :=
  { userId := some "u1", file := some ⟨"notes.txt", 100, "text/plain"⟩,
    initDb := Except.ok (), usersGetById := Except.ok true,
    usersUpsert := Except.ok (),
    processImage := Except.ok "",
    extractText := Except.ok "First chunk text. Second chunk text.",
    documentId := "doc-2", documentsCreate := Except.ok (),
    chunkText := fun _ => ["First chunk text.", "Second chunk text."],
    uploadedAt := "2026-01-01",
    embedEnvAt := fun i =>
      if i = 0 then ⟨true, fun _ => EmbedResponse.ok (List.replicate 1536 0)⟩
      else ⟨false, fun _ => EmbedResponse.invalidBody⟩,
    storeEnvAt := fun _ => ⟨Except.ok (), false, false, Except.ok ()⟩,
    pgCreateAt := fun _ => Except.ok () }

theorem upload_reports_per_chunk_counts_witness :
    ∃ s fc tr,
      uploadPOST uploadEnvTwoChunks =
        (UploadResponse.success
          ⟨"doc-2", s, 2, s, fc,
            jsTake 500 "First chunk text. Second chunk text." ++ "..."⟩, tr) ∧
      s + fc = 2 :=
  upload_reports_per_chunk_counts uploadEnvTwoChunks ⟨"notes.txt", 100, "text/plain"⟩
    "u1" "u1" "First chunk text. Second chunk text." rfl rfl rfl rfl
    (by decide) (by decide) rfl (by decide) rfl (by decide)
